import Mathlib

/-!
Loan Aggregation Pipeline — shallow embedding of `src/app.py`.

The dashboard's logic (validate → clean → four aggregations) is embedded as
executable Lean definitions.  CSV cells are modelled as `Option String`
(`none` is a missing cell, which pandas reads as NaN); amounts become `Rat`
after cleaning; dates become `Option Date` (`none` is NaT).  Floating-point
division by zero (NaN/inf) is modelled by `Option Rat`, with `none` for the
undefined results of a zero denominator.
-/

namespace LoanApp

/-- Strip leading and trailing whitespace, as Python `str.strip()`
(`.str.strip()` on line 61 of `app.py`). Implemented over `List Char`
so the kernel can evaluate it. -/
def pyStrip (s : String) : String :=
  ⟨((s.data.dropWhile Char.isWhitespace).reverse.dropWhile Char.isWhitespace).reverse⟩

/-- ASCII lower-casing, as Python `str.lower()` (`.str.lower()` on line 61). -/
def pyLower (s : String) : String :=
  ⟨s.data.map Char.toLower⟩

/-- Python `str(x)` applied to a possibly-missing cell: pandas `astype(str)`
turns NaN into the literal string `"nan"` (line 61 of `app.py`). -/
def astypeStr : Option String → String
  | none => "nan"
  | some s => s

/-- Value of a list of decimal digit characters. -/
def digitsVal (l : List Char) : Nat :=
  l.foldl (fun a c => a * 10 + (c.toNat - 48)) 0

/-- Split a character list at the first `'-'`. -/
def splitDash : List Char → List Char × Option (List Char)
  | [] => ([], none)
  | c :: rest =>
    if c = '-' then ([], some rest)
    else
      let p := splitDash rest
      (c :: p.1, p.2)

/-- Split a character list at the first `'.'`. -/
def splitDot : List Char → List Char × Option (List Char)
  | [] => ([], none)
  | c :: rest =>
    if c = '.' then ([], some rest)
    else
      let p := splitDot rest
      (c :: p.1, p.2)

/-- Scanning phase of numeric parsing: accepts an optional sign followed by a
decimal numeral with an optional fractional part, returning the sign and the
integer/fraction digit lists; any other string is rejected. -/
def parseScan (s : String) : Option (Bool × List Char × List Char) :=
  let t := (pyStrip s).data
  let signBody : Bool × List Char :=
    match t with
    | '-' :: r => (true, r)
    | '+' :: r => (false, r)
    | r => (false, r)
  let neg := signBody.1
  let (ip, fpOpt) := splitDot signBody.2
  let fp := fpOpt.getD []
  if ip.all Char.isDigit && fp.all Char.isDigit && (!ip.isEmpty || !fp.isEmpty) then
    some (neg, ip, fp)
  else none

/-- Rational value of a scanned numeral. -/
def ratOfDigits (neg : Bool) (ip fp : List Char) : Rat :=
  let q : Rat := (digitsVal ip : Rat) + (digitsVal fp : Rat) / ((10 : Rat) ^ fp.length)
  if neg then -q else q

/-- Numeric parsing as performed by `pd.to_numeric(..., errors="coerce")`
(line 58 of `app.py`): an optional sign followed by a decimal numeral with an
optional fractional part parses to its rational value; any other string fails
(the library also accepts scientific notation, which no claim exercises). -/
def parseNumeric (s : String) : Option Rat :=
  (parseScan s).map (fun p => ratOfDigits p.1 p.2.1 p.2.2)

/-- A calendar date, the result of a successful `pd.to_datetime` parse. -/
structure Date where
  year : Nat
  month : Nat
  day : Nat
deriving DecidableEq, Repr

def isLeap (y : Nat) : Bool :=
  (y % 4 = 0 && y % 100 ≠ 0) || y % 400 = 0

def daysInMonth (y m : Nat) : Nat :=
  if m = 2 then (if isLeap y then 29 else 28)
  else if m = 4 || m = 6 || m = 9 || m = 11 then 30
  else 31

/-- Date parsing as performed by
`pd.to_datetime(..., format="%d-%m-%Y", errors="coerce")` (line 55 of
`app.py`): exactly three dash-separated digit groups (day, month, four-or-fewer
digit year) forming a valid calendar date; anything else fails (NaT). -/
def parseDate (s : String) : Option Date :=
  let (dpart, rest1) := splitDash s.data
  match rest1 with
  | none => none
  | some r1 =>
    let (mpart, rest2) := splitDash r1
    match rest2 with
    | none => none
    | some ypart =>
      if ypart.any (· = '-') then none
      else if dpart.all Char.isDigit && mpart.all Char.isDigit && ypart.all Char.isDigit
          && (decide (1 ≤ dpart.length) && decide (dpart.length ≤ 2))
          && (decide (1 ≤ mpart.length) && decide (mpart.length ≤ 2))
          && (decide (1 ≤ ypart.length) && decide (ypart.length ≤ 4)) then
        let d := digitsVal dpart
        let m := digitsVal mpart
        let y := digitsVal ypart
        if 1 ≤ m && m ≤ 12 && 1 ≤ d && d ≤ daysInMonth y m then
          some ⟨y, m, d⟩
        else none
      else none

/-- A raw CSV row: each required column's cell, `none` when the cell is
missing (pandas NaN). -/
structure RawRow where
  loan_id : Option String
  loan_amount : Option String
  date_granted : Option String
  loan_type : Option String
deriving DecidableEq, Repr

/-- A cleaned row, after lines 55–61 of `app.py`. -/
structure CleanRow where
  loan_id : Option String
  loan_amount : Rat
  date_granted : Option Date
  loan_type : String
deriving DecidableEq, Repr

/-- Row-wise cleaning (lines 55–61 of `app.py`): `Date_Granted` is parsed
(unparseable or missing → `none`, i.e. NaT), `Loan_Amount` is parsed with
failures coerced to 0 (`fillna(0)`), and `Loan_Type` is stringified, stripped
and lower-cased. `Loan_ID` is untouched. -/
def cleanRow (r : RawRow) : CleanRow :=
  { loan_id := r.loan_id
    loan_amount := (r.loan_amount.bind parseNumeric).getD 0
    date_granted := r.date_granted.bind parseDate
    loan_type := pyLower (pyStrip (astypeStr r.loan_type)) }

/-- The cleaning step: the three column-wise operations of lines 55–61 act
independently on each row. -/
def clean (rows : List RawRow) : List CleanRow :=
  rows.map cleanRow

/-- First occurrences, scanning left to right with `seen` the values already
emitted. -/
def uniqueAux [DecidableEq α] (seen : List α) : List α → List α
  | [] => []
  | x :: xs => if x ∈ seen then uniqueAux seen xs else x :: uniqueAux (x :: seen) xs

/-- Distinct values in order of first occurrence, as pandas
`Series.unique()` (line 64 of `app.py`). -/
def uniqueFirst [DecidableEq α] (l : List α) : List α := uniqueAux [] l

/-- `df["Loan_Type"].unique()` on the cleaned data (line 64): the canonical
type list `default_data` every aggregation is left-merged onto. -/
def loanTypes (rows : List CleanRow) : List String :=
  uniqueFirst (rows.map (·.loan_type))

/-- The rows of one `groupby("Loan_Type")` group. -/
def byType (t : String) (rows : List CleanRow) : List CleanRow :=
  rows.filter (fun r => r.loan_type = t)

/-- Lines 69–72: `groupby("Loan_Type")["Loan_ID"].count()` counts the
non-null `Loan_ID` cells of each group; the left merge onto `default_data`
produces exactly one row per distinct type, and since every distinct type has
a (possibly zero-count) group, the merged value is its group's count. -/
def product_count (rows : List CleanRow) : List (String × Nat) :=
  (loanTypes rows).map
    (fun t => (t, ((byType t rows).filter (fun r => r.loan_id.isSome)).length))

/-- Lines 83–86: `groupby("Loan_Type")["Loan_Amount"].sum()` merged onto
`default_data` the same way. -/
def product_amount (rows : List CleanRow) : List (String × Rat) :=
  (loanTypes rows).map
    (fun t => (t, ((byType t rows).map (·.loan_amount)).sum))

/-- Year-month key of `dt.to_period("M")` (line 97), linearised so that the
natural order on keys is chronological order. -/
def monthKey (d : Date) : Nat := d.year * 12 + (d.month - 1)

/-- The rows of one `groupby("Month")` group (rows whose date parsed and
falls in month `m`). -/
def byMonth (m : Nat) (rows : List CleanRow) : List CleanRow :=
  rows.filter (fun r => r.date_granted.map monthKey = some m)

/-- The distinct month keys among non-null dates. -/
def monthsPresent (rows : List CleanRow) : List Nat :=
  uniqueFirst ((rows.filterMap (·.date_granted)).map monthKey)

/-- Lines 97–99: `groupby("Month")["Loan_Amount"].sum()`. `groupby` sorts its
keys ascending and (by default) drops the null key, so the output has one row
per distinct month of the non-NaT dates, chronologically ordered, with the
group's amount sum. -/
def monthly_summary (rows : List CleanRow) : List (Nat × Rat) :=
  ((monthsPresent rows).insertionSort (· ≤ ·)).map
    (fun m => (m, ((byMonth m rows).map (·.loan_amount)).sum))

/-- One row of the summary statistics table (lines 110–120), before the
string formatting of lines 123–127. -/
structure StatsRow where
  loan_type : String
  total_loans : Nat
  total_amount : Rat
  avg_amount : Rat
  max_amount : Rat
  min_amount : Rat
  portfolio : Option Rat
deriving DecidableEq, Repr

/-- Maximum of a group's amounts; groups are nonempty, so the `[]` case is an
arbitrary default never reached. -/
def listMax : List Rat → Rat
  | [] => 0
  | x :: xs => xs.foldl max x

/-- Minimum of a group's amounts; `[]` likewise unreachable. -/
def listMin : List Rat → Rat
  | [] => 0
  | x :: xs => xs.foldl min x

/-- The distinct types in the sorted order `groupby("Loan_Type")` emits. -/
def sortedTypes (rows : List CleanRow) : List String :=
  (loanTypes rows).insertionSort (· ≤ ·)

/-- Lines 110–116: the aggregated columns of `product_stats`, one row per
group, before the portfolio column is added; pandas `mean` is the group sum
over the group size. -/
def statsBase (rows : List CleanRow) : List StatsRow :=
  (sortedTypes rows).map (fun t =>
    let grp := byType t rows
    let amts := grp.map (·.loan_amount)
    { loan_type := t
      total_loans := (grp.filter (fun r => r.loan_id.isSome)).length
      total_amount := amts.sum
      avg_amount := amts.sum / (grp.length : Rat)
      max_amount := listMax amts
      min_amount := listMin amts
      portfolio := none })

/-- Line 119: `total_loans_disbursed`, the sum of the per-type totals. -/
def grandTotal (rows : List CleanRow) : Rat :=
  ((statsBase rows).map (·.total_amount)).sum

/-- Line 120: the portfolio-percentage column. Float division by a zero
grand total yields NaN or ±infinity, never a number; those undefined results
are modelled as `none`. -/
def product_stats (rows : List CleanRow) : List StatsRow :=
  (statsBase rows).map (fun r =>
    { r with portfolio :=
        if grandTotal rows = 0 then none
        else some (r.total_amount / grandTotal rows * 100) })

/-- Line 48 of `app.py`. -/
def required_columns : List String :=
  ["Loan_ID", "Loan_Amount", "Date_Granted", "Loan_Type"]

/-- An uploaded CSV: its header and its rows. -/
structure RawFrame where
  columns : List String
  rows : List RawRow

/-- Line 49: the required columns absent from the upload. -/
def missing_columns (df : RawFrame) : List String :=
  required_columns.filter (fun c => ¬ c ∈ df.columns)

/-- The four tables handed to the presentation layer. -/
structure Outputs where
  counts : List (String × Nat)
  amounts : List (String × Rat)
  monthly : List (Nat × Rat)
  stats : List StatsRow
deriving DecidableEq, Repr

/-- Lines 51–129: when any required column is missing the app shows the error
naming them and computes nothing; otherwise it cleans and produces the four
aggregations. -/
def run_pipeline (df : RawFrame) : Except (List String) Outputs :=
  if missing_columns df = [] then
    let c := clean df.rows
    Except.ok
      { counts := product_count c
        amounts := product_amount c
        monthly := monthly_summary c
        stats := product_stats c }
  else
    Except.error (missing_columns df)

/-- A cleaned row with its date removed, used to state that the per-type
reports do not depend on the date column. -/
def eraseDate (r : CleanRow) : CleanRow :=
  { r with date_granted := none }

/-- A dataset whose only amount cell is non-numeric: every cleaned amount is
0 and the grand total is 0. -/
def exZeroTotal : List RawRow :=
  [⟨some "L1", some "abc", some "01-01-2024", some "personal"⟩]

/-- A dataset with a missing `Loan_ID` cell. -/
def exNullId : List RawRow :=
  [⟨none, some "10", none, some "a"⟩]

/-- A dataset with a negative numeric amount. -/
def exNegAmount : List RawRow :=
  [⟨some "L1", some "-5", some "01-01-2024", some "personal"⟩]

/-- An upload without the `Loan_Type` column. -/
def exMissingFrame : RawFrame :=
  ⟨["Loan_ID", "Loan_Amount", "Date_Granted"], []⟩

/-- The spec's worked example rows. -/
def exMixed : List RawRow :=
  [⟨some "L1", some "1000", some "01-01-2024", some "Personal"⟩,
   ⟨some "L2", some "abc", some "15-01-2024", some " personal "⟩,
   ⟨some "L3", some "500", some "bad-date", some "Auto"⟩]

/-- A row whose date and amount cells both fail to parse. -/
def exBadBoth : RawRow :=
  ⟨none, some "abc", some "bad-date", none⟩

/-- A dataset with a single row and a nonzero amount. -/
def exSingle : List RawRow :=
  [⟨some "L3", some "500", some "01-02-2024", some "auto"⟩]

/-- A row with a missing `Loan_Type` cell. -/
def exNullTypeRow : RawRow :=
  ⟨some "L1", some "10", some "01-01-2024", none⟩

/-- A dataset containing `exNullTypeRow`. -/
def exNullType : List RawRow :=
  [exNullTypeRow]

theorem sum_map_ite_zero {β M : Type} [DecidableEq β] [AddCommMonoid M] (x : M) (k : β) :
    ∀ ks : List β, k ∉ ks → (ks.map (fun t => if k = t then x else 0)).sum = 0 := by
  intro ks
  induction ks with
  | nil => intro _; simp
  | cons t ts ih =>
    intro h
    have h1 : k ≠ t := fun he => h (he ▸ List.mem_cons_self t ts)
    have h2 : k ∉ ts := fun hm => h (List.mem_cons_of_mem t hm)
    simp [if_neg h1, ih h2]

theorem sum_map_ite {β M : Type} [DecidableEq β] [AddCommMonoid M] (x : M) (k : β) :
    ∀ ks : List β, ks.Nodup → k ∈ ks → (ks.map (fun t => if k = t then x else 0)).sum = x := by
  intro ks
  induction ks with
  | nil => intro _ h; cases h
  | cons t ts ih =>
    intro hnd hk
    rcases List.mem_cons.mp hk with rfl | hk2
    · have hnotin : k ∉ ts := (List.nodup_cons.mp hnd).1
      simp [sum_map_ite_zero x k ts hnotin]
    · have h1 : k ≠ t := by
        rintro rfl
        exact (List.nodup_cons.mp hnd).1 hk2
      simp [if_neg h1, ih (List.nodup_cons.mp hnd).2 hk2]

theorem length_filter_eq_sum {α : Type} (q : α → Bool) :
    ∀ l : List α, (l.filter q).length = (l.map (fun a => if q a then (1 : Nat) else 0)).sum := by
  intro l
  induction l with
  | nil => simp
  | cons x xs ih => cases hq : q x <;> simp [List.filter_cons, hq, ih, Nat.add_comm]

theorem sum_over_types {M : Type} [AddCommMonoid M] (f : CleanRow → M) :
    ∀ (rows : List CleanRow) (ks : List String), ks.Nodup →
      (∀ r ∈ rows, r.loan_type ∈ ks) →
      (ks.map (fun t => ((byType t rows).map f).sum)).sum = (rows.map f).sum := by
  intro rows
  induction rows with
  | nil => intro ks _ _; simp [byType]
  | cons r rest ih =>
    intro ks hnd hc
    have hsplit : ∀ t : String, ((byType t (r :: rest)).map f).sum
        = (if r.loan_type = t then f r else 0) + ((byType t rest).map f).sum := by
      intro t
      by_cases h : r.loan_type = t <;> simp [byType, List.filter_cons, h]
    simp only [hsplit]
    rw [List.sum_map_add]
    rw [sum_map_ite (f r) r.loan_type ks hnd (hc r (List.mem_cons_self r rest))]
    rw [ih ks hnd (fun x hx => hc x (List.mem_cons_of_mem r hx))]
    simp

theorem mem_uniqueAux {α : Type} [DecidableEq α] (a : α) :
    ∀ (l seen : List α), a ∈ uniqueAux seen l ↔ (a ∈ l ∧ a ∉ seen) := by
  intro l
  induction l with
  | nil => intro seen; simp [uniqueAux]
  | cons x xs ih =>
    intro seen
    by_cases hx : x ∈ seen
    · rw [show uniqueAux seen (x :: xs) = uniqueAux seen xs from by
        simp [uniqueAux, if_pos hx]]
      rw [ih seen]
      constructor
      · rintro ⟨h1, h2⟩
        exact ⟨List.mem_cons_of_mem x h1, h2⟩
      · rintro ⟨h1, h2⟩
        rcases List.mem_cons.mp h1 with rfl | h1b
        · exact (h2 hx).elim
        · exact ⟨h1b, h2⟩
    · rw [show uniqueAux seen (x :: xs) = x :: uniqueAux (x :: seen) xs from by
        simp [uniqueAux, if_neg hx]]
      rw [List.mem_cons, ih (x :: seen)]
      constructor
      · rintro (rfl | ⟨h1, h2⟩)
        · exact ⟨List.mem_cons_self _ _, hx⟩
        · exact ⟨List.mem_cons_of_mem x h1,
            fun hs => h2 (List.mem_cons_of_mem x hs)⟩
      · rintro ⟨h1, h2⟩
        by_cases hax : a = x
        · exact Or.inl hax
        · rcases List.mem_cons.mp h1 with rfl | h1b
          · exact Or.inl rfl
          · refine Or.inr ⟨h1b, fun hm => ?_⟩
            rcases List.mem_cons.mp hm with rfl | hm2
            · exact hax rfl
            · exact h2 hm2

theorem nodup_uniqueAux {α : Type} [DecidableEq α] :
    ∀ (l seen : List α), (uniqueAux seen l).Nodup := by
  intro l
  induction l with
  | nil => intro seen; simp [uniqueAux]
  | cons x xs ih =>
    intro seen
    by_cases hx : x ∈ seen
    · rw [show uniqueAux seen (x :: xs) = uniqueAux seen xs from by
        simp [uniqueAux, if_pos hx]]
      exact ih seen
    · rw [show uniqueAux seen (x :: xs) = x :: uniqueAux (x :: seen) xs from by
        simp [uniqueAux, if_neg hx]]
      refine List.nodup_cons.mpr ⟨fun hm => ?_, ih (x :: seen)⟩
      exact ((mem_uniqueAux x xs (x :: seen)).mp hm).2 (List.mem_cons_self x seen)

theorem mem_uniqueFirst {α : Type} [DecidableEq α] {a : α} {l : List α} :
    a ∈ uniqueFirst l ↔ a ∈ l := by
  rw [uniqueFirst, mem_uniqueAux]
  simp

theorem nodup_uniqueFirst {α : Type} [DecidableEq α] (l : List α) :
    (uniqueFirst l).Nodup :=
  nodup_uniqueAux l []

theorem nodup_loanTypes (rows : List CleanRow) : (loanTypes rows).Nodup :=
  nodup_uniqueFirst _

theorem mem_loanTypes {t : String} {rows : List CleanRow} :
    t ∈ loanTypes rows ↔ t ∈ rows.map (·.loan_type) :=
  mem_uniqueFirst

theorem loanTypes_complete (rows : List CleanRow) :
    ∀ r ∈ rows, r.loan_type ∈ loanTypes rows :=
  fun _ hr => mem_loanTypes.mpr (List.mem_map_of_mem _ hr)

theorem sortedTypes_perm (rows : List CleanRow) :
    (sortedTypes rows).Perm (loanTypes rows) :=
  List.perm_insertionSort _ _

theorem nodup_sortedTypes (rows : List CleanRow) : (sortedTypes rows).Nodup :=
  (sortedTypes_perm rows).symm.nodup (nodup_loanTypes rows)

theorem sortedTypes_complete (rows : List CleanRow) :
    ∀ r ∈ rows, r.loan_type ∈ sortedTypes rows :=
  fun r hr => (sortedTypes_perm rows).mem_iff.mpr (loanTypes_complete rows r hr)

theorem statsBase_map_total (rows : List CleanRow) :
    (statsBase rows).map (·.total_amount)
      = (sortedTypes rows).map (fun t => ((byType t rows).map (·.loan_amount)).sum) := by
  rw [statsBase, List.map_map]
  rfl

theorem grandTotal_eq (rows : List CleanRow) :
    grandTotal rows = (rows.map (·.loan_amount)).sum := by
  rw [grandTotal, statsBase_map_total]
  exact sum_over_types _ rows (sortedTypes rows) (nodup_sortedTypes rows)
    (sortedTypes_complete rows)

/-- C1: on a cleaned dataset whose grand total amount is 0 (here: the single
amount cell is non-numeric, so it coerces to 0), the code's portfolio
percentage is the undefined float-division result (`none`, i.e. NaN), not the
zero the spec requires: the aggregator does not define it as zero. -/
theorem c1_portfolio_undefined_at_zero_total :
    grandTotal (clean exZeroTotal) = 0 ∧
      (product_stats (clean exZeroTotal)).map (·.portfolio) = [none] ∧
      (product_stats (clean exZeroTotal)).map (·.portfolio) ≠ [some 0] := by
  have hamt : (clean exZeroTotal).map (·.loan_amount) = [0] := by
    simp [clean, exZeroTotal, cleanRow, parseNumeric,
      show parseScan "abc" = none from by decide]
  have hG : grandTotal (clean exZeroTotal) = 0 := by
    rw [grandTotal_eq, hamt]
    simp
  have hmap : (product_stats (clean exZeroTotal)).map (·.portfolio)
      = (sortedTypes (clean exZeroTotal)).map (fun _ => none) := by
    simp [product_stats, statsBase, List.map_map, hG, Function.comp_def]
  have hst : sortedTypes (clean exZeroTotal) = ["personal"] := by decide
  rw [hmap, hst]
  refine ⟨hG, rfl, by simp⟩

/-- C2 counterexample: on a cleaned dataset with one row whose `Loan_ID` cell
is missing, the per-type counts sum to 0 while the dataset has 1 row, so the
sum of counts does not equal the row count. -/
theorem c2_counterexample :
    ((product_count (clean exNullId)).map Prod.snd).sum ≠ (clean exNullId).length := by
  decide

/-- C2 (amended): the per-type counts sum to the number of cleaned rows with
a non-null `Loan_ID` (`groupby(...)["Loan_ID"].count()` counts non-null cells
only), which equals the total row count exactly when no `Loan_ID` is
missing. -/
theorem c2_count_sum (rows : List CleanRow) :
    ((product_count rows).map Prod.snd).sum
      = (rows.filter (fun r => r.loan_id.isSome)).length := by
  have h1 : (product_count rows).map Prod.snd
      = (loanTypes rows).map
          (fun t => ((byType t rows).filter (fun r => r.loan_id.isSome)).length) := by
    rw [product_count, List.map_map]
    rfl
  rw [h1]
  have h2 : ∀ t, ((byType t rows).filter (fun r => r.loan_id.isSome)).length
      = ((byType t rows).map (fun a => if a.loan_id.isSome then (1 : Nat) else 0)).sum :=
    fun _ => length_filter_eq_sum _ _
  simp only [h2]
  rw [sum_over_types (fun a => if a.loan_id.isSome then (1 : Nat) else 0) rows
    (loanTypes rows) (nodup_loanTypes rows) (loanTypes_complete rows)]
  rw [← length_filter_eq_sum]

/-- C3 counterexample: the numeric cell "-5" survives cleaning as the
negative amount -5, so cleaned amounts are not all non-negative. -/
theorem c3_counterexample :
    (clean exNegAmount).map (·.loan_amount) = [-5] ∧ ((-5 : Rat) < 0) := by
  constructor
  · have hs : parseScan "-5" = some (true, ['5'], []) := by decide
    have hd : digitsVal ['5'] = 5 := by decide
    have hd0 : digitsVal [] = 0 := by decide
    simp [clean, exNegAmount, cleanRow, parseNumeric, hs, ratOfDigits, hd, hd0]
  · norm_num

/-- C3 (amended): every cleaned `Loan_Amount` is the real number parsed from
its cell, with non-numeric or missing cells coerced to 0; numeric values,
including negative ones, are preserved, so non-negativity is not enforced. -/
theorem c3_amount_coercion (raw : RawRow) :
    (raw.loan_amount.bind parseNumeric = none → (cleanRow raw).loan_amount = 0) ∧
      (∀ v : Rat, raw.loan_amount.bind parseNumeric = some v →
        (cleanRow raw).loan_amount = v) := by
  constructor
  · intro h
    simp [cleanRow, h]
  · intro v h
    simp [cleanRow, h]

/-- C3 witness: at a concrete non-numeric cell the cleaned amount is 0, and
at a concrete numeric cell the parsed value is preserved. -/
theorem c3_amount_coercion_witness :
    (exBadBoth.loan_amount.bind parseNumeric = none ∧
        (cleanRow exBadBoth).loan_amount = 0) ∧
      ((exNullTypeRow.loan_amount.bind parseNumeric = some 10) ∧
        (cleanRow exNullTypeRow).loan_amount = 10) := by
  have h1 : exBadBoth.loan_amount.bind parseNumeric = none := by decide
  have hs : parseScan "10" = some (false, ['1', '0'], []) := by decide
  have hd : digitsVal ['1', '0'] = 10 := by decide
  have hd0 : digitsVal [] = 0 := by decide
  have h2 : exNullTypeRow.loan_amount.bind parseNumeric = some 10 := by
    simp [exNullTypeRow, parseNumeric, hs, ratOfDigits, hd, hd0]
  exact ⟨⟨h1, (c3_amount_coercion exBadBoth).1 h1⟩,
    ⟨h2, (c3_amount_coercion exNullTypeRow).2 10 h2⟩⟩

/-- C4: when at least one required column is missing, the validator's list is
exactly the set of required columns absent from the upload, the pipeline
halts with that list, and no aggregation output is produced. -/
theorem c4_missing_columns (df : RawFrame) (h : missing_columns df ≠ []) :
    run_pipeline df = Except.error (missing_columns df) ∧
      (∀ c, c ∈ missing_columns df ↔ (c ∈ required_columns ∧ c ∉ df.columns)) ∧
      ∀ out : Outputs, run_pipeline df ≠ Except.ok out := by
  have herr : run_pipeline df = Except.error (missing_columns df) := by
    rw [run_pipeline, if_neg h]
  refine ⟨herr, ?_, ?_⟩
  · intro c
    simp [missing_columns, List.mem_filter, decide_eq_true_iff]
  · intro out hok
    rw [herr] at hok
    exact Except.noConfusion hok

/-- C4 witness: an upload without the `Loan_Type` column fails with exactly
that name. -/
theorem c4_missing_columns_witness :
    missing_columns exMissingFrame ≠ [] ∧
      run_pipeline exMissingFrame = Except.error ["Loan_Type"] ∧
      ("Loan_Type" ∈ missing_columns exMissingFrame ↔
        ("Loan_Type" ∈ required_columns ∧ "Loan_Type" ∉ exMissingFrame.columns)) := by
  have h : missing_columns exMissingFrame ≠ [] := by decide
  have hthm := c4_missing_columns exMissingFrame h
  refine ⟨h, ?_, hthm.2.1 "Loan_Type"⟩
  rw [hthm.1, show missing_columns exMissingFrame = ["Loan_Type"] from by decide]

/-- C5: cleaning is row-wise and preserves the row count; a `Date_Granted`
cell that fails the fixed day-month-year parse becomes null and a
`Loan_Amount` cell that fails numeric parsing becomes 0 — per-row, never
fatal. -/
theorem c5_cleaner (raws : List RawRow) :
    (clean raws).length = raws.length ∧
      clean raws = raws.map cleanRow ∧
      (∀ raw : RawRow,
        (raw.date_granted.bind parseDate = none → (cleanRow raw).date_granted = none) ∧
        (raw.loan_amount.bind parseNumeric = none → (cleanRow raw).loan_amount = 0)) := by
  refine ⟨by simp [clean], rfl, ?_⟩
  intro raw
  exact ⟨fun h => by simp [cleanRow, h], fun h => by simp [cleanRow, h]⟩

/-- C5 witness: on the spec's worked example the row count is preserved, and
on a row whose two cells both fail to parse the date becomes null and the
amount becomes 0. -/
theorem c5_cleaner_witness :
    (clean exMixed).length = exMixed.length ∧
      (exBadBoth.date_granted.bind parseDate = none ∧
        (cleanRow exBadBoth).date_granted = none) ∧
      (exBadBoth.loan_amount.bind parseNumeric = none ∧
        (cleanRow exBadBoth).loan_amount = 0) := by
  have hd : exBadBoth.date_granted.bind parseDate = none := by decide
  have ha : exBadBoth.loan_amount.bind parseNumeric = none := by decide
  exact ⟨(c5_cleaner exMixed).1,
    ⟨hd, ((c5_cleaner exMixed).2.2 exBadBoth).1 hd⟩,
    ⟨ha, ((c5_cleaner exMixed).2.2 exBadBoth).2 ha⟩⟩

theorem map_loanType_eraseDate (rows : List CleanRow) :
    (rows.map eraseDate).map (·.loan_type) = rows.map (·.loan_type) := by
  rw [List.map_map]
  rfl

theorem byType_eraseDate (t : String) (rows : List CleanRow) :
    byType t (rows.map eraseDate) = (byType t rows).map eraseDate := by
  simp only [byType]
  rw [List.filter_map]
  rfl

theorem product_count_eraseDate (rows : List CleanRow) :
    product_count (rows.map eraseDate) = product_count rows := by
  simp only [product_count, loanTypes, map_loanType_eraseDate, byType_eraseDate]
  simp only [List.filter_map, List.length_map]
  rfl

theorem product_amount_eraseDate (rows : List CleanRow) :
    product_amount (rows.map eraseDate) = product_amount rows := by
  simp only [product_amount, loanTypes, map_loanType_eraseDate, byType_eraseDate,
    List.map_map]
  rfl

/-- C6: the count report has exactly one row per distinct normalized type of
the cleaned data — its key column is the distinct-type list itself, without
duplicates, so every distinct type appears even when its aggregated value is
zero. -/
theorem c6_count_rows (rows : List CleanRow) :
    (product_count rows).map Prod.fst = loanTypes rows ∧
      ((product_count rows).map Prod.fst).Nodup ∧
      (∀ t, t ∈ (product_count rows).map Prod.fst ↔ t ∈ rows.map (·.loan_type)) := by
  have h1 : (product_count rows).map Prod.fst = loanTypes rows := by
    rw [product_count, List.map_map]
    simp [Function.comp_def]
  refine ⟨h1, ?_, ?_⟩
  · rw [h1]
    exact nodup_loanTypes rows
  · intro t
    rw [h1]
    exact mem_loanTypes

/-- C7: the monthly trend has one strictly increasing (hence duplicate-free,
chronological) row per calendar month occurring among the non-null dates of
the cleaned data, each row carrying that month's amount sum; rows with null
dates are excluded here, while the per-type reports are unchanged when every
date is nulled out. -/
theorem c7_monthly_trend (rows : List CleanRow) :
    ((monthly_summary rows).map Prod.fst).Pairwise (· < ·) ∧
      (∀ m, m ∈ (monthly_summary rows).map Prod.fst ↔
        m ∈ (rows.filterMap (·.date_granted)).map monthKey) ∧
      monthly_summary rows = ((monthly_summary rows).map Prod.fst).map
        (fun m => (m, ((byMonth m rows).map (·.loan_amount)).sum)) ∧
      product_count (rows.map eraseDate) = product_count rows ∧
      product_amount (rows.map eraseDate) = product_amount rows := by
  have hkeys : (monthly_summary rows).map Prod.fst
      = (monthsPresent rows).insertionSort (· ≤ ·) := by
    rw [monthly_summary, List.map_map]
    simp [Function.comp_def]
  have hsorted : ((monthsPresent rows).insertionSort (· ≤ ·)).Sorted (· ≤ ·) :=
    List.sorted_insertionSort _ _
  have hnd : ((monthsPresent rows).insertionSort (· ≤ ·)).Nodup :=
    (List.perm_insertionSort _ _).symm.nodup (nodup_uniqueFirst _)
  refine ⟨?_, ?_, ?_, product_count_eraseDate rows, product_amount_eraseDate rows⟩
  · rw [hkeys]
    exact (hsorted.and hnd).imp (fun h => lt_of_le_of_ne h.1 h.2)
  · intro m
    rw [hkeys, (List.perm_insertionSort _ _).mem_iff]
    exact mem_uniqueFirst
  · rw [hkeys]
    rfl

/-- C8: the amount report's per-type totals and the summary table's per-type
totals sum to the same grand total (both are the sum of all cleaned
amounts). -/
theorem c8_totals_agree (rows : List CleanRow) :
    ((product_amount rows).map Prod.snd).sum
      = ((product_stats rows).map (·.total_amount)).sum := by
  have h1 : (product_amount rows).map Prod.snd
      = (loanTypes rows).map (fun t => ((byType t rows).map (·.loan_amount)).sum) := by
    rw [product_amount, List.map_map]
    rfl
  have h2 : (product_stats rows).map (·.total_amount)
      = (statsBase rows).map (·.total_amount) := by
    rw [product_stats, List.map_map]
    rfl
  rw [h1, h2, statsBase_map_total]
  rw [sum_over_types _ rows (loanTypes rows) (nodup_loanTypes rows)
    (loanTypes_complete rows)]
  rw [sum_over_types _ rows (sortedTypes rows) (nodup_sortedTypes rows)
    (sortedTypes_complete rows)]

/-- C9: when the grand total amount is nonzero, every portfolio percentage is
a defined number and together they sum to exactly 100. -/
theorem c9_portfolio_sum (rows : List CleanRow) (h : grandTotal rows ≠ 0) :
    ((product_stats rows).map (fun r => r.portfolio.getD 0)).sum = 100 ∧
      ∀ r ∈ product_stats rows, r.portfolio.isSome := by
  constructor
  · have h1 : (product_stats rows).map (fun r => r.portfolio.getD 0)
        = (statsBase rows).map (fun r => r.total_amount / grandTotal rows * 100) := by
      simp [product_stats, List.map_map, h, Function.comp_def]
    rw [h1]
    have h2 : ∀ r : StatsRow,
        r.total_amount / grandTotal rows * 100
          = r.total_amount * (100 / grandTotal rows) := by
      intro r
      rw [div_mul_eq_mul_div, mul_div_assoc]
    simp only [h2]
    rw [List.sum_map_mul_right]
    rw [show ((statsBase rows).map (·.total_amount)).sum = grandTotal rows from rfl]
    rw [mul_comm, div_mul_cancel₀ _ h]
  · intro r hr
    simp only [product_stats, List.mem_map] at hr
    obtain ⟨a, _, rfl⟩ := hr
    simp [h]

/-- C9 witness: a one-row dataset with amount 500 has nonzero grand total and
portfolio percentages summing to 100. -/
theorem c9_portfolio_sum_witness :
    grandTotal (clean exSingle) ≠ 0 ∧
      ((product_stats (clean exSingle)).map (fun r => r.portfolio.getD 0)).sum = 100 := by
  have hs : parseScan "500" = some (false, ['5', '0', '0'], []) := by decide
  have hd : digitsVal ['5', '0', '0'] = 500 := by decide
  have hd0 : digitsVal [] = 0 := by decide
  have hamt : (clean exSingle).map (·.loan_amount) = [500] := by
    simp [clean, exSingle, cleanRow, parseNumeric, hs, ratOfDigits, hd, hd0]
  have hne : grandTotal (clean exSingle) ≠ 0 := by
    rw [grandTotal_eq, hamt]
    norm_num
  exact ⟨hne, (c9_portfolio_sum (clean exSingle) hne).1⟩

/-- C10: a missing `Loan_Type` cell is stringified by `astype(str)` to the
literal "nan", so its row is cleaned to type "nan" and that type appears as a
group in every per-type report — the count report, the amount report and the
summary-statistics table — rather than being dropped. -/
theorem c10_nan_type (raws : List RawRow) (raw : RawRow) (hmem : raw ∈ raws)
    (hnone : raw.loan_type = none) :
    (cleanRow raw).loan_type = "nan" ∧
      "nan" ∈ (product_count (clean raws)).map Prod.fst ∧
      "nan" ∈ (product_amount (clean raws)).map Prod.fst ∧
      "nan" ∈ (product_stats (clean raws)).map (·.loan_type) := by
  have hastype : astypeStr raw.loan_type = "nan" := by
    rw [hnone]
    rfl
  have hnan : (cleanRow raw).loan_type = "nan" := by
    show pyLower (pyStrip (astypeStr raw.loan_type)) = "nan"
    rw [hastype]
    decide
  have hpresent : "nan" ∈ loanTypes (clean raws) := by
    apply mem_loanTypes.mpr
    rw [← hnan]
    exact List.mem_map_of_mem _ (List.mem_map_of_mem cleanRow hmem)
  have h1 : (product_count (clean raws)).map Prod.fst = loanTypes (clean raws) := by
    rw [product_count, List.map_map]
    simp [Function.comp_def]
  have h2 : (product_amount (clean raws)).map Prod.fst = loanTypes (clean raws) := by
    rw [product_amount, List.map_map]
    simp [Function.comp_def]
  have h3 : (product_stats (clean raws)).map (·.loan_type) = sortedTypes (clean raws) := by
    rw [product_stats, statsBase, List.map_map, List.map_map]
    simp [Function.comp_def]
  refine ⟨hnan, ?_, ?_, ?_⟩
  · rw [h1]
    exact hpresent
  · rw [h2]
    exact hpresent
  · rw [h3]
    exact (sortedTypes_perm (clean raws)).mem_iff.mpr hpresent

/-- C10 witness: the concrete row with a missing `Loan_Type` cell cleans to
type "nan", which appears in the count report, the amount report and the
summary table of its dataset. -/
theorem c10_nan_type_witness :
    exNullTypeRow ∈ exNullType ∧ exNullTypeRow.loan_type = none ∧
      (cleanRow exNullTypeRow).loan_type = "nan" ∧
      "nan" ∈ (product_count (clean exNullType)).map Prod.fst ∧
      "nan" ∈ (product_amount (clean exNullType)).map Prod.fst ∧
      "nan" ∈ (product_stats (clean exNullType)).map (·.loan_type) := by
  have h := c10_nan_type exNullType exNullTypeRow (List.mem_cons_self _ _) rfl
  exact ⟨List.mem_cons_self _ _, rfl, h.1, h.2.1, h.2.2.1, h.2.2.2⟩

end LoanApp
